import Mathlib

/-!
Verification of the zoho_reports persistence layer (`models.py`) against its
natural-language specification.  The Python code is shallowly embedded:
dataframes become lists of rows over an explicit `Value` type, the MySQL
destination becomes an association list of named tables, SQL statement
construction becomes pure string building, and the transactional chunk loop
of `RawDatabase.insert_data` becomes an explicit state-passing run with
rollback-on-error semantics (mirroring `engine.begin()`).
-/

set_option linter.unusedVariables false
set_option maxRecDepth 4096

namespace ZohoReports

/-! ## String helpers -/

/-- Python `sep.join(parts)`: concatenates the parts with `sep` interleaved. -/
def joinSep (sep : String) : List String → String
  | [] => ""
  | [x] => x
  | x :: y :: xs => x ++ sep ++ joinSep sep (y :: xs)

/-- Appending strings appends their character lists. -/
theorem strData_append (a b : String) : (a ++ b).data = a.data ++ b.data := rfl

/-- Boolean prefix test on character lists. -/
def isPrefixOfCL : List Char → List Char → Bool
  | [], _ => true
  | _ :: _, [] => false
  | a :: as, b :: bs => a == b && isPrefixOfCL as bs

/-- Boolean substring test on character lists; `hasSub pat hay` mirrors the
Python containment test `pat in hay`. -/
def hasSub (pat : List Char) : List Char → Bool
  | [] => isPrefixOfCL pat []
  | c :: t => isPrefixOfCL pat (c :: t) || hasSub pat t

theorem isPrefixOfCL_iff (p l : List Char) :
    isPrefixOfCL p l = true ↔ ∃ t, l = p ++ t := by
  induction p generalizing l with
  | nil => simp [isPrefixOfCL]
  | cons a as ih =>
    cases l with
    | nil => simp [isPrefixOfCL]
    | cons b bs =>
      simp only [isPrefixOfCL, Bool.and_eq_true, beq_iff_eq, ih]
      constructor
      · rintro ⟨rfl, t, rfl⟩; exact ⟨t, rfl⟩
      · rintro ⟨t, h⟩
        cases h
        exact ⟨rfl, t, rfl⟩

theorem hasSub_iff (pat hay : List Char) :
    hasSub pat hay = true ↔ ∃ pre post, hay = pre ++ pat ++ post := by
  induction hay with
  | nil =>
    simp only [hasSub, isPrefixOfCL_iff]
    constructor
    · rintro ⟨t, h⟩
      exact ⟨[], t, by simpa using h⟩
    · rintro ⟨pre, post, h⟩
      exact ⟨post ++ pre, by
        rcases List.append_eq_nil.mp h.symm with ⟨h1, h2⟩
        rcases List.append_eq_nil.mp h1 with ⟨h3, h4⟩
        simp [h2, h3, h4]⟩
  | cons c t ih =>
    simp only [hasSub, Bool.or_eq_true, isPrefixOfCL_iff, ih]
    constructor
    · rintro (⟨s, h⟩ | ⟨pre, post, h⟩)
      · exact ⟨[], s, by simpa using h⟩
      · exact ⟨c :: pre, post, by simp [h]⟩
    · rintro ⟨pre, post, h⟩
      cases pre with
      | nil => exact Or.inl ⟨post, by simpa using h⟩
      | cons p ps =>
        right
        refine ⟨ps, post, ?_⟩
        simpa using congrArg List.tail h

theorem hasSub_of_parts (pat pre post hay : List Char)
    (h : hay = pre ++ pat ++ post) : hasSub pat hay = true :=
  (hasSub_iff pat hay).mpr ⟨pre, post, h⟩

/-- A member of a joined list occurs as a substring of the join. -/
theorem hasSub_joinSep (sep : String) (l : List String) (x : String)
    (hx : x ∈ l) : hasSub x.data (joinSep sep l).data = true := by
  induction l with
  | nil => cases hx
  | cons y ys ih =>
    cases ys with
    | nil =>
      rcases List.mem_singleton.mp hx with rfl
      exact hasSub_of_parts _ [] [] _ (by simp [joinSep])
    | cons z zs =>
      rcases List.mem_cons.mp hx with rfl | h
      · exact hasSub_of_parts _ [] (sep.data ++ (joinSep sep (z :: zs)).data) _
          (by simp [joinSep, strData_append])
      · rcases (hasSub_iff _ _).mp (ih h) with ⟨pre, post, hsplit⟩
        exact hasSub_of_parts _ ((y ++ sep).data ++ pre) post _
          (by simp [joinSep, strData_append, hsplit])

/-! ## Scalar values and dataframes

A pandas dataframe is embedded as an ordered column list together with
positional rows.  `Value.vNaN` stands for a floating-point not-a-number,
`Value.vNull` for Python `None` / SQL NULL, and `Value.vTime` for a
`datetime` instant (an abstract tick count). -/

inductive Value where
  | vNull
  | vNaN
  | vStr (s : String)
  | vInt (n : Int)
  | vTime (t : Nat)
  deriving DecidableEq

structure DataFrame where
  cols : List String
  rows : List (List Value)
  deriving DecidableEq

/-- Embeds the column-name normalisation used in `models.py`
(`join(e for e in i if e.isalnum())`): keep only alphanumeric characters. -/
def normalizeCol (s : String) : String :=
  String.mk (s.data.filter Char.isAlphanum)

/-- Embeds the value normalisation of `RawDatabase._clean_data`:
`where(pd.notnull(data), None)` and `replace(\x7bnp.nan: None\x7d)` send NaN to
None, and `replace(\x7b.NaN.: None\x7d)` sends the literal string token to
None. -/
def cleanValue : Value → Value
  | .vNaN => .vNull
  | .vStr s => if s = "NaN" then .vNull else .vStr s
  | v => v

/-- Embeds `RawDatabase._clean_data`: null-normalise every cell and rename the
headers to their alphanumeric-only form.  All pandas operations used there
(`where`, `replace`, column reassignment on the derived frame) produce a new
frame, so the embedding is a pure function of its input. -/
def cleanData (data : DataFrame) : DataFrame :=
  ⟨data.cols.map normalizeCol, data.rows.map (fun r => r.map cleanValue)⟩

/-- Embeds the pandas column assignment `data[name] = v` used on the
missing-table fallback path: replace the column if the name exists, otherwise
append a new column holding `v` in every row. -/
def setCol (df : DataFrame) (name : String) (v : Value) : DataFrame :=
  if df.cols.contains name then
    ⟨df.cols, df.rows.map (fun r => r.set (df.cols.indexOf name) v)⟩
  else
    ⟨df.cols ++ [name], df.rows.map (fun r => r ++ [v])⟩

/-! ## Connection string assembly (`RawDatabase.create_database_uri`) -/

/-- Uppercase hexadecimal digit for `n < 16`. -/
def hexDigit (n : Nat) : Char :=
  if n < 10 then Char.ofNat (48 + n) else Char.ofNat (55 + n)

/-- Embeds `urllib.parse.quote_plus` on single-byte code points: a space
becomes a plus, alphanumerics and `_.-~` pass through, anything else is
percent-encoded with uppercase hex digits. -/
def quotePlusChar (c : Char) : String :=
  if c = ' ' then "+"
  else if c.isAlphanum || c = '_' || c = '.' || c = '-' || c = '~' then
    String.singleton c
  else
    "%" ++ String.singleton (hexDigit (c.toNat / 16)) ++
      String.singleton (hexDigit (c.toNat % 16))

def quote_plus (s : String) : String :=
  String.join (s.data.map quotePlusChar)

/-- Embeds `RawDatabase.create_database_uri`: only `user` and `password` pass
through `quote_plus`; `host`, `port` and `database` are interpolated verbatim
into the URI. -/
def create_database_uri (user password host port database : String) : String :=
  "mysql+pymysql://" ++ quote_plus user ++ ":" ++ quote_plus password ++ "@" ++
    host ++ ":" ++ port ++ "/" ++ database

/-- The fully percent-encoded composition the specification describes
(each of the five parts percent-encoded before being composed). -/
def specEncodedUri (user password host port database : String) : String :=
  "mysql+pymysql://" ++ quote_plus user ++ ":" ++ quote_plus password ++ "@" ++
    quote_plus host ++ ":" ++ quote_plus port ++ "/" ++ quote_plus database

/-! ## The destination store -/

structure Table where
  cols : List String
  rows : List (List Value)
  deriving DecidableEq

/-- The destination MySQL database: an association list of named tables. -/
abbrev DBState := List (String × Table)

def lookupTable : DBState → String → Option Table
  | [], _ => none
  | (n, t) :: rest, name => if n = name then some t else lookupTable rest name

def setTable : DBState → String → Table → DBState
  | [], name, t => [(name, t)]
  | (n, t0) :: rest, name, t =>
    if n = name then (name, t) :: rest else (n, t0) :: setTable rest name t

/-- A MySQL-level execution failure, as surfaced through
`SQLAlchemyError.orig.args`: a numeric code and a message. -/
structure SqlError where
  code : Nat
  msg : String
  deriving DecidableEq

/-- An apostrophe character, kept out of string literals. -/
def apos : String := String.singleton (Char.ofNat 39)

/-- The fragment of the MySQL 1146 message that `insert_data` tests for. -/
def missingFragment : String := "doesn" ++ apos ++ "t exist"

/-- The error MySQL raises when the destination table is absent. -/
def tableMissingError (tbl : String) : SqlError :=
  ⟨1146, "Table " ++ apos ++ tbl ++ apos ++ " " ++ missingFragment⟩

/-- Embeds the recovery test of `insert_data`:
`error_code == 1146 and "doesn't exist" in error_message`. -/
def missingTableErr (e : SqlError) : Bool :=
  e.code == 1146 && hasSub missingFragment.data e.msg.data

/-- Embeds `pandas.DataFrame.to_sql(table, if_exists=.append.)`: create the
table from the frame when absent, otherwise append the rows. -/
def toSqlAppend (db : DBState) (tbl : String) (df : DataFrame) : DBState :=
  match lookupTable db tbl with
  | none => db ++ [(tbl, ⟨df.cols, df.rows⟩)]
  | some t => setTable db tbl ⟨t.cols, t.rows ++ df.rows⟩

/-! ## Statement construction (`RawDatabase.insert_data`, lines 112-124) -/

/-- Embeds the f-string assembly of `sql_query` in `insert_data`, including
its exact whitespace: destination identifiers are the original column names
backtick-quoted, bind parameters are the normalised names, and the
`ON DUPLICATE KEY UPDATE` clause refreshes every column and then
`record_updated`. -/
def insertDataSql (table_name : String) (all_columns : List String) : String :=
  let normalised_cloumns := all_columns.map normalizeCol
  let columns_placeholder := joinSep ", " (normalised_cloumns.map (fun col => ":" ++ col))
  let updateString :=
    joinSep "," (all_columns.map (fun i => "`" ++ i ++ "` = values(`" ++ i ++ "`)")) ++
      ",`record_updated` = current_timestamp()"
  "\n                INSERT INTO " ++ table_name ++ " (" ++
    joinSep ", " (all_columns.map (fun col => "`" ++ col ++ "`")) ++
    ")\n                VALUES (" ++ columns_placeholder ++
    ")\n                ON DUPLICATE KEY UPDATE " ++ updateString ++
    ";\n            "

/-- Shape of an upsert statement as the specification describes it: a table
name, destination column identifiers, bind-parameter names, and the columns
refreshed on conflict. -/
structure UpsertStatementShape where
  table : String
  destColumns : List String
  bindParams : List String
  updateColumns : List String

/-- Modelled from the spec: renders an `UpsertStatementShape` as
`INSERT INTO t (cols) VALUES (params) ON DUPLICATE KEY UPDATE
col = values(col), ..., record_updated = current_timestamp()`, with the
destination identifiers backtick-quoted and the bind parameters
colon-prefixed. -/
def renderUpsertStatement (s : UpsertStatementShape) : String :=
  "\n                INSERT INTO " ++ s.table ++ " (" ++
    joinSep ", " (s.destColumns.map (fun col => "`" ++ col ++ "`")) ++
    ")\n                VALUES (" ++
    joinSep ", " (s.bindParams.map (fun col => ":" ++ col)) ++
    ")\n                ON DUPLICATE KEY UPDATE " ++
    joinSep "," (s.updateColumns.map (fun i => "`" ++ i ++ "` = values(`" ++ i ++ "`)")) ++
    ",`record_updated` = current_timestamp()" ++
    ";\n            "

/-! ## Chunked execution (`RawDatabase.insert_data`, lines 129-156) -/

/-- Embeds the `chunker` generator of `insert_data`:
`(seq[pos:pos + size] for pos in range(0, len(seq), size))`.  The index set
`range(0, len(seq), size)` has `ceil(len(seq) / size)` elements with
`pos = i * size`.  (Python raises `ValueError` for `size = 0`; the engine
only calls it with the positive default `batch_size = 1000`.) -/
def chunker (seq : List (List Value)) (size : Nat) : List (List (List Value)) :=
  (List.range ((seq.length + size - 1) / size)).map
    (fun i => (seq.drop (i * size)).take size)

/-- Executes one batched statement against the working transaction state:
fails with the MySQL 1146 error when the destination table is absent,
otherwise appends the bound rows and reports the batch size as the affected
row count.  (Conflict resolution of `ON DUPLICATE KEY UPDATE` is not needed
by any property proved below and is modelled as a plain append.) -/
def execChunk (db : DBState) (tbl : String) (chunk : List (List Value)) :
    Except SqlError (DBState × Nat) :=
  match lookupTable db tbl with
  | none => .error (tableMissingError tbl)
  | some t => .ok (setTable db tbl ⟨t.cols, t.rows ++ chunk⟩, chunk.length)

/-- Result of driving the chunk loop inside the transaction:
which chunks were executed (1-indexed), and either the working state plus the
last reported row count, or the error that aborted the loop. -/
structure ChunkRun where
  executed : List Nat
  outcome : Except SqlError (DBState × Option Nat)

/-- The `for batch in chunker(...)` loop inside `with engine.begin()`:
chunks run in order against the working state; `inject i` forces a failure
before chunk `i` executes (the fault-injection hook of the specification).
The last executed chunk determines `result.rowcount`. -/
def runChunks (inject : Nat → Option SqlError) (tbl : String) :
    DBState → List (List (List Value)) → Nat → Option Nat → ChunkRun
  | db, [], _, last => ⟨[], .ok (db, last)⟩
  | db, c :: cs, i, last =>
    match inject i with
    | some e => ⟨[], .error e⟩
    | none =>
      match execChunk db tbl c with
      | .error e => ⟨[], .error e⟩
      | .ok (db1, n) =>
        let r := runChunks inject tbl db1 cs (i + 1) (some n)
        ⟨i :: r.executed, r.outcome⟩

/-- The transactional attempt of `insert_data`: clean the data, chunk it, and
drive the loop starting from chunk 1 with no row count yet. -/
def insertAttempt (inject : Nat → Option SqlError) (db : DBState)
    (data : DataFrame) (tbl : String) (bs : Nat) : ChunkRun :=
  runChunks inject tbl db (chunker (cleanData data).rows bs) 1 none

/-- The error (if any) that aborted the transactional attempt. -/
def attemptError (inject : Nat → Option SqlError) (db : DBState)
    (data : DataFrame) (tbl : String) (bs : Nat) : Option SqlError :=
  match (insertAttempt inject db data tbl bs).outcome with
  | .ok _ => none
  | .error e => some e

/-- What `insert_data` hands back to its caller: `ok n` is the list
`[result.rowcount, duration]`, `zero` is the `[0, 0]` sentinel of the
`except Exception` branch, and `noneVal` is the implicit Python `None` of the
`except SQLAlchemyError` branch (both of its arms fall off the function
without a `return`).  Wall-clock duration is not modelled. -/
inductive InsertResult where
  | ok (rowcount : Nat)
  | zero
  | noneVal
  deriving DecidableEq

/-- Complete observable outcome of one `insert_data` call: the returned
value, the destination state after commit or rollback, the statement text
it built, the caller-visible dataframe after the call (Python mutates it on
the fallback path), and the 1-indexed list of chunks that executed. -/
structure InsertOutcome where
  result : InsertResult
  db : DBState
  stmt : String
  data : DataFrame
  executed : List Nat
  deriving DecidableEq

/-- Embeds `RawDatabase.insert_data`.  The chunk loop runs inside
`engine.begin()`, so an aborting error rolls the whole transaction back to
`db`.  On zero chunks the local `result` is unbound and the trailing
`return [result.rowcount, duration]` raises `UnboundLocalError`, which the
`except Exception` arm converts to `[0, 0]`.  A `SQLAlchemyError` whose code
is 1146 with a message containing the missing-table fragment triggers the
fallback: both audit columns are assigned on the caller-owned frame
(mutation!) and the frame is written via `to_sql(..., if_exists=.append.)`;
every other `SQLAlchemyError` hits `pass` and the call returns `None`.
`primary_key` is accepted and never consulted. -/
def insertData (inject : Nat → Option SqlError) (now : Nat) (db : DBState)
    (data : DataFrame) (table_name : String) (primary_key : Option String)
    (batch_size : Nat) : InsertOutcome :=
  let stmt := insertDataSql table_name data.cols
  let r := insertAttempt inject db data table_name batch_size
  match r.outcome with
  | .ok (db1, some n) => ⟨.ok n, db1, stmt, data, r.executed⟩
  | .ok (db1, none) => ⟨.zero, db1, stmt, data, r.executed⟩
  | .error e =>
    if missingTableErr e then
      let data1 := setCol (setCol data "record_inserted" (.vTime now))
        "record_updated" (.vTime now)
      ⟨.noneVal, toSqlAppend db table_name data1, stmt, data1, r.executed⟩
    else
      ⟨.noneVal, db, stmt, data, r.executed⟩

/-! ## Plain insert path (`RawDatabase.insert_df_table`) -/

/-- Embeds the statement assembly of `insert_df_table`: backtick-quoted
original column names, colon parameters on the raw (unnormalised) names, and
an `ON DUPLICATE KEY UPDATE` clause only when `primary_key` is truthy
(Python `if primary_key:` - both `None` and the empty string are falsy), in
which case the key column itself is excluded from the update list. -/
def insertDfSql (table_name : String) (column_names : List String)
    (primary_key : Option String) : String :=
  let base := "INSERT INTO " ++ table_name ++ " (" ++
    joinSep ", " (column_names.map (fun col => "`" ++ col ++ "`")) ++
    ") VALUES " ++ "(" ++
    joinSep ", " (column_names.map (fun col => ":" ++ col)) ++ ")"
  let full :=
    match primary_key with
    | some pk =>
      if pk = "" then base
      else
        base ++ " ON DUPLICATE KEY UPDATE " ++
          joinSep ", " (((column_names.filter (fun col => col ≠ pk)).map
            (fun col => "`" ++ col ++ "` = VALUES(`" ++ col ++ "`)"))) ++
          ", `record_updated` = current_timestamp()"
    | none => base
  full ++ ";"

/-- Modelled from the spec: a plain parameterized `INSERT` statement with no
conflict clause at all. -/
def renderPlainInsert (table_name : String) (column_names : List String) : String :=
  "INSERT INTO " ++ table_name ++ " (" ++
    joinSep ", " (column_names.map (fun col => "`" ++ col ++ "`")) ++
    ") VALUES " ++ "(" ++
    joinSep ", " (column_names.map (fun col => ":" ++ col)) ++ ")" ++ ";"

/-- Null-normalisation performed inside `insert_df_table` before binding:
NaN-like cells become `None`; datetime cells equal to `pd.Timestamp.min` or
the epoch (modelled as tick 0) also become `None`. -/
def cleanDfValue : Value → Value
  | .vNaN => .vNull
  | .vTime t => if t = 0 then .vNull else .vTime t
  | v => v

/-- The record list `insert_df_table` binds to its statement. -/
def dfRecords (df : DataFrame) : List (List Value) :=
  df.rows.map (fun r => r.map cleanDfValue)

/-- Embeds `RawDatabase.insert_df_table`: build the statement from the frame
columns, bind the cleaned records, and execute once on a connection
(`exec` abstracts `conn.execute` + `conn.commit`).  The `except` arm prints
and then re-raises, so a failing execution propagates unchanged to the
caller. -/
def insert_df_table
    (exec : String → List (List Value) → Except SqlError DBState)
    (df : DataFrame) (table_name : String) (primary_key : Option String) :
    Except SqlError DBState :=
  exec (insertDfSql table_name df.cols primary_key) (dfRecords df)

/-! ## Placeholder translation (`RawDatabase.execute_query`, line 74) -/

/-- Embeds `query.replace("%(", ":")`: a left-to-right scan replacing every
non-overlapping occurrence of the two-character pattern. -/
def replPercentParen : List Char → List Char
  | [] => []
  | [c] => [c]
  | c1 :: c2 :: rest =>
    if c1 = '%' && c2 = '(' then ':' :: replPercentParen rest
    else c1 :: replPercentParen (c2 :: rest)

/-- Embeds `query.replace(")s", "")`: a left-to-right scan deleting every
non-overlapping occurrence of the two-character pattern. -/
def dropParenS : List Char → List Char
  | [] => []
  | [c] => [c]
  | c1 :: c2 :: rest =>
    if c1 = ')' && c2 = 's' then dropParenS rest
    else c1 :: dropParenS (c2 :: rest)

/-- Embeds the placeholder translation applied by `execute_query` before
handing the text to the driver:
`query.replace("%(", ":").replace(")s", "")`. -/
def executeQueryRewrite (query : String) : String :=
  String.mk (dropParenS (replPercentParen query.data))

/-- A query seen as alternating literal text and named placeholders. -/
inductive QuerySeg where
  | lit (s : String)
  | param (name : String)

/-- Renders a segment in the percent style accepted by `execute_query`
callers: a placeholder `name` becomes `%(name)s`. -/
def percentRenderSeg : QuerySeg → List Char
  | .lit s => s.data
  | .param n => '%' :: '(' :: (n.data ++ ')' :: 's' :: [])

/-- Renders a segment in the colon style the driver expects: a placeholder
`name` becomes `:name`. -/
def colonRenderSeg : QuerySeg → List Char
  | .lit s => s.data
  | .param n => ':' :: n.data

def percentRender (qs : List QuerySeg) : List Char :=
  (qs.map percentRenderSeg).flatten

def colonRender (qs : List QuerySeg) : List Char :=
  (qs.map colonRenderSeg).flatten

/-- Literal text free of the pattern and not ending in its first
character. -/
def noPP : List Char → Bool
  | [] => true
  | [c] => c != '%'
  | c1 :: c2 :: t => if c1 = '%' && c2 = '(' then false else noPP (c2 :: t)

/-- Literal text free of the deletion pattern and not ending in its first
character. -/
def noPS : List Char → Bool
  | [] => true
  | [c] => c != ')'
  | c1 :: c2 :: t => if c1 = ')' && c2 = 's' then false else noPS (c2 :: t)

/-- Well-formedness of a query segment: every occurrence of the substrings
rewritten by `execute_query` lies inside a placeholder, and placeholder
names are nonempty alphanumeric tokens. -/
def wfSeg : QuerySeg → Bool
  | .lit s => noPP s.data && noPS s.data
  | .param n => !n.data.isEmpty && n.data.all Char.isAlphanum

def wfQuery (qs : List QuerySeg) : Bool :=
  qs.all wfSeg

/-! ## Helper lemmas -/

theorem chunker_nil (size : Nat) : chunker [] size = [] := by
  unfold chunker
  rcases Nat.eq_zero_or_pos size with h | h
  · simp [h]
  · have h0 : (size - 1) / size = 0 := Nat.div_eq_of_lt (by omega)
    simp [h0]

theorem chunker_ne_nil (seq : List (List Value)) (size : Nat)
    (hseq : seq ≠ []) (hsize : 0 < size) : chunker seq size ≠ [] := by
  unfold chunker
  have hlen : 0 < seq.length := List.length_pos.mpr hseq
  have hdiv : 1 ≤ (seq.length + size - 1) / size := by
    rw [Nat.le_div_iff_mul_le hsize]
    omega
  simp only [ne_eq, List.map_eq_nil_iff, List.range_eq_nil]
  omega

theorem missingTableErr_tableMissing (tbl : String) :
    missingTableErr (tableMissingError tbl) = true := by
  unfold missingTableErr tableMissingError
  simp only [beq_self_eq_true, Bool.true_and]
  exact hasSub_of_parts _ (("Table " ++ apos ++ tbl ++ apos ++ " ").data) [] _
    (by simp [strData_append, List.append_assoc])

theorem lookupTable_append_self (db : DBState) (tbl : String) (t : Table)
    (h : lookupTable db tbl = none) : lookupTable (db ++ [(tbl, t)]) tbl = some t := by
  induction db with
  | nil => simp [lookupTable]
  | cons p rest ih =>
    obtain ⟨n, t0⟩ := p
    by_cases hn : n = tbl
    · simp [lookupTable, hn] at h
    · simp only [List.cons_append, lookupTable, if_neg hn] at h ⊢
      exact ih h

/-- A substring of a part is a substring of any surrounding whole. -/
theorem hasSub_mono (pat inner pre post hay : List Char)
    (h : hasSub pat inner = true) (hh : hay = pre ++ inner ++ post) :
    hasSub pat hay = true := by
  rcases (hasSub_iff _ _).mp h with ⟨a, b, rfl⟩
  exact hasSub_of_parts _ (pre ++ a) (b ++ post) _ (by simp [hh, List.append_assoc])

/-! ## Claim C5 -/

/-- C5: for every input table, the single parameterized statement built by
`insert_data` uses the original (possibly punctuated) column names,
backtick-quoted, as destination column identifiers, uses the
alphanumeric-only normalized names as bind-parameter names, and its
`ON DUPLICATE KEY UPDATE` clause refreshes every column of the input plus
`record_updated = current_timestamp()`. -/
theorem claim5_statement_shape (table_name : String) (all_columns : List String) :
    insertDataSql table_name all_columns =
      renderUpsertStatement
        ⟨table_name, all_columns, all_columns.map normalizeCol, all_columns⟩ := by
  apply String.ext
  simp [insertDataSql, renderUpsertStatement, strData_append, List.append_assoc]

/-! ## Claim C7 -/

/-- C7 counterexample: with a host containing a space, the URI built by
`create_database_uri` carries the host verbatim, not percent-encoded, so the
five parts are not each percent-encoded as claimed. -/
theorem claim7_counterexample :
    create_database_uri "u" "p w" "h t" "3306" "db" =
        "mysql+pymysql://u:p+w@h t:3306/db" ∧
    create_database_uri "u" "p w" "h t" "3306" "db" ≠
        specEncodedUri "u" "p w" "h t" "3306" "db" := by
  constructor
  · rfl
  · decide

/-- C7 amended: the connection string is assembled with `user` and `password`
percent-encoded, while `host`, `port` and `database` are composed verbatim:
the encoded user and password and the raw host, port and database each occur
as substrings of the URI. -/
theorem claim7_uri_composition (user password host port database : String) :
    hasSub (quote_plus user).data
        (create_database_uri user password host port database).data = true ∧
    hasSub (quote_plus password).data
        (create_database_uri user password host port database).data = true ∧
    hasSub host.data
        (create_database_uri user password host port database).data = true ∧
    hasSub port.data
        (create_database_uri user password host port database).data = true ∧
    hasSub database.data
        (create_database_uri user password host port database).data = true := by
  refine ⟨?_, ?_, ?_, ?_, ?_⟩
  · exact hasSub_of_parts _ ("mysql+pymysql://".data)
      ((":" ++ quote_plus password ++ "@" ++ host ++ ":" ++ port ++ "/" ++ database).data) _
      (by simp [create_database_uri, strData_append, List.append_assoc])
  · exact hasSub_of_parts _ (("mysql+pymysql://" ++ quote_plus user ++ ":").data)
      (("@" ++ host ++ ":" ++ port ++ "/" ++ database).data) _
      (by simp [create_database_uri, strData_append, List.append_assoc])
  · exact hasSub_of_parts _
      (("mysql+pymysql://" ++ quote_plus user ++ ":" ++ quote_plus password ++ "@").data)
      ((":" ++ port ++ "/" ++ database).data) _
      (by simp [create_database_uri, strData_append, List.append_assoc])
  · exact hasSub_of_parts _
      (("mysql+pymysql://" ++ quote_plus user ++ ":" ++ quote_plus password ++ "@" ++
        host ++ ":").data)
      (("/" ++ database).data) _
      (by simp [create_database_uri, strData_append, List.append_assoc])
  · exact hasSub_of_parts _
      (("mysql+pymysql://" ++ quote_plus user ++ ":" ++ quote_plus password ++ "@" ++
        host ++ ":" ++ port ++ "/").data) [] _
      (by simp [create_database_uri, strData_append, List.append_assoc])

/-! ## Claim C8 -/

/-- C8: for every data, table name and any two values of the `primary_key`
argument, `insert_data` builds exactly the same SQL statement and produces
the same outcome (the parameter is never consulted), and the
`ON DUPLICATE KEY UPDATE` clause refreshes every column - in particular any
key column appears in it as a `values()` refresh. -/
theorem claim8_primary_key_ignored :
    (∀ (inject : Nat → Option SqlError) (now : Nat) (db : DBState)
        (data : DataFrame) (table_name : String) (pk1 pk2 : Option String)
        (batch_size : Nat),
        insertData inject now db data table_name pk1 batch_size =
          insertData inject now db data table_name pk2 batch_size) ∧
    (∀ (table_name : String) (cols : List String) (k : String), k ∈ cols →
        hasSub ("`" ++ k ++ "` = values(`" ++ k ++ "`)").data
          (insertDataSql table_name cols).data = true) := by
  constructor
  · intro inject now db data table_name pk1 pk2 batch_size
    rfl
  · intro table_name cols k hk
    have hmem : ("`" ++ k ++ "` = values(`" ++ k ++ "`)") ∈
        cols.map (fun i => "`" ++ i ++ "` = values(`" ++ i ++ "`)") :=
      List.mem_map_of_mem _ hk
    have hjoin := hasSub_joinSep ","
      (cols.map (fun i => "`" ++ i ++ "` = values(`" ++ i ++ "`)")) _ hmem
    refine hasSub_mono _ _
      (("\n                INSERT INTO " ++ table_name ++ " (" ++
        joinSep ", " (cols.map (fun col => "`" ++ col ++ "`")) ++
        ")\n                VALUES (" ++
        joinSep ", " ((cols.map normalizeCol).map (fun col => ":" ++ col)) ++
        ")\n                ON DUPLICATE KEY UPDATE ").data)
      ((",`record_updated` = current_timestamp()" ++ ";\n            ").data) _
      hjoin ?_
    simp [insertDataSql, strData_append, List.append_assoc]

/-- C8 witness: a concrete run with and without a primary key gives one and
the same outcome, and the key column `a` is itself refreshed in the conflict
clause of the generated statement. -/
theorem claim8_witness :
    (insertData (fun _ => none) 0 [] ⟨["a"], []⟩ "t" (some "a") 5 =
      insertData (fun _ => none) 0 [] ⟨["a"], []⟩ "t" none 5) ∧
    hasSub ("`" ++ "a" ++ "` = values(`" ++ "a" ++ "`)").data
      (insertDataSql "t" ["a", "b"]).data = true :=
  ⟨claim8_primary_key_ignored.1 (fun _ => none) 0 [] ⟨["a"], []⟩ "t" (some "a") none 5,
   claim8_primary_key_ignored.2 "t" ["a", "b"] "a" (by decide)⟩

/-! ## Claim C9 -/

/-- C9: for every call to `insert_df_table` with `primary_key = None` (the
form used by four of the five report loaders), the generated statement is a
plain `INSERT` with no `ON DUPLICATE KEY UPDATE` clause, and on any
execution failure `insert_df_table` re-raises the exception to its caller
instead of returning a zero-result value. -/
theorem claim9_plain_insert_and_reraise
    (exec : String → List (List Value) → Except SqlError DBState)
    (df : DataFrame) (table_name : String) :
    insertDfSql table_name df.cols none = renderPlainInsert table_name df.cols ∧
    (∀ e : SqlError,
        exec (insertDfSql table_name df.cols none) (dfRecords df) = .error e →
        insert_df_table exec df table_name none = .error e) := by
  constructor
  · rfl
  · intro e h
    exact h

/-- C9 witness: at a concrete frame, the statement with no key equals the
plain render, and a failing execution propagates its error unchanged. -/
theorem claim9_witness :
    insertDfSql "t" ["a"] none = renderPlainInsert "t" ["a"] ∧
    insert_df_table (fun _ _ => .error ⟨1062, "Duplicate entry"⟩)
        ⟨["a"], [[Value.vInt 1]]⟩ "t" none = .error ⟨1062, "Duplicate entry"⟩ :=
  ⟨(claim9_plain_insert_and_reraise (fun _ _ => .error ⟨1062, "Duplicate entry"⟩)
      ⟨["a"], [[Value.vInt 1]]⟩ "t").1,
   (claim9_plain_insert_and_reraise (fun _ _ => .error ⟨1062, "Duplicate entry"⟩)
      ⟨["a"], [[Value.vInt 1]]⟩ "t").2 ⟨1062, "Duplicate entry"⟩ rfl⟩

/-! ## Claim C1 -/

/-- C1 counterexample: on the missing-table recovery path, `insert_data`
assigns the two audit columns on the caller-owned dataframe before
`to_sql`, so the caller sees its table grow by two columns - the caller
copy is not left unchanged on every path. -/
theorem claim1_counterexample :
    (insertData (fun _ => none) 7 [] ⟨["a"], [[Value.vInt 1]]⟩ "t" none 1000).data.cols =
        ["a", "record_inserted", "record_updated"] ∧
    (["a", "record_inserted", "record_updated"] : List String) ≠ ["a"] := by
  decide

/-- C1 amended: the caller dataframe is unchanged after `insert_data` on
every path except the missing-table recovery path (where it gains the two
audit columns), and `_clean_data` is a pure function returning a new table
with row count and column count identical to its input. -/
theorem claim1_no_mutation_outside_fallback :
    (∀ (inject : Nat → Option SqlError) (now : Nat) (db : DBState)
        (data : DataFrame) (table_name : String) (primary_key : Option String)
        (batch_size : Nat),
        (attemptError inject db data table_name batch_size).all
          (fun e => !missingTableErr e) = true →
        (insertData inject now db data table_name primary_key batch_size).data = data) ∧
    (∀ df : DataFrame,
        (cleanData df).rows.length = df.rows.length ∧
        (cleanData df).cols.length = df.cols.length) := by
  constructor
  · intro inject now db data table_name primary_key batch_size h
    unfold attemptError at h
    unfold insertData
    cases houtcome : (insertAttempt inject db data table_name batch_size).outcome with
    | ok p =>
      obtain ⟨db1, last⟩ := p
      cases last <;> simp [houtcome]
    | error e =>
      rw [houtcome] at h
      simp only [Option.all] at h
      rw [Bool.not_eq_eq_eq_not, Bool.not_true] at h
      simp [houtcome, h]
  · intro df
    simp [cleanData]

/-- C1 witness: a successful run against an existing table leaves the
caller frame untouched, and cleaning preserves both counts. -/
theorem claim1_witness :
    (insertData (fun _ => none) 0 [("t", ⟨["a"], []⟩)] ⟨["a"], [[Value.vInt 1]]⟩
        "t" none 1000).data = ⟨["a"], [[Value.vInt 1]]⟩ ∧
    ((cleanData ⟨["b c"], [[Value.vNaN]]⟩).rows.length =
        (⟨["b c"], [[Value.vNaN]]⟩ : DataFrame).rows.length ∧
     (cleanData ⟨["b c"], [[Value.vNaN]]⟩).cols.length =
        (⟨["b c"], [[Value.vNaN]]⟩ : DataFrame).cols.length) :=
  ⟨claim1_no_mutation_outside_fallback.1 (fun _ => none) 0 [("t", ⟨["a"], []⟩)]
      ⟨["a"], [[Value.vInt 1]]⟩ "t" none 1000 (by decide),
   claim1_no_mutation_outside_fallback.2 ⟨["b c"], [[Value.vNaN]]⟩⟩

/-! ## Claim C2 -/

/-- C2 counterexample: three one-row chunks against an existing empty table
with a forced duplicate-key failure at chunk 2: chunk 1 was executed, yet
after the call the table is still empty - `engine.begin()` rolled the whole
transaction back, so the rows of chunks `1..k-1` are not observably
committed. -/
theorem claim2_counterexample :
    (insertData (fun i => if i = 2 then some ⟨1062, "Duplicate entry"⟩ else none) 0
        [("t", ⟨["a"], []⟩)]
        ⟨["a"], [[Value.vInt 1], [Value.vInt 2], [Value.vInt 3]]⟩
        "t" none 1).executed = [1] ∧
    lookupTable
      (insertData (fun i => if i = 2 then some ⟨1062, "Duplicate entry"⟩ else none) 0
        [("t", ⟨["a"], []⟩)]
        ⟨["a"], [[Value.vInt 1], [Value.vInt 2], [Value.vInt 3]]⟩
        "t" none 1).db "t" = some ⟨["a"], []⟩ := by
  decide

/-- C2 amended: when execution fails at some chunk with an error other than
the recognized missing-table condition, the single transaction opened by
`engine.begin()` rolls back, so no chunk (earlier ones included) is
committed - the destination is exactly as before the call - and the call
reports a failure (the Python `None`), not a success. -/
theorem claim2_rollback_on_chunk_failure
    (inject : Nat → Option SqlError) (now : Nat) (db : DBState)
    (data : DataFrame) (table_name : String) (primary_key : Option String)
    (batch_size : Nat) (e : SqlError)
    (herr : attemptError inject db data table_name batch_size = some e)
    (hnm : missingTableErr e = false) :
    (insertData inject now db data table_name primary_key batch_size).db = db ∧
    (insertData inject now db data table_name primary_key batch_size).result =
      InsertResult.noneVal := by
  unfold attemptError at herr
  unfold insertData
  cases houtcome : (insertAttempt inject db data table_name batch_size).outcome with
  | ok p =>
    rw [houtcome] at herr
    cases herr
  | error e1 =>
    rw [houtcome] at herr
    rcases Option.some.injEq .. ▸ herr with rfl
    simp [houtcome, hnm]

/-- C2 witness: a forced failure at the very first chunk leaves the
destination untouched and yields the `None` report. -/
theorem claim2_witness :
    (insertData (fun _ => some ⟨1062, "Duplicate key"⟩) 0 [("u", ⟨["b"], []⟩)]
        ⟨["b"], [[Value.vInt 4]]⟩ "u" none 1000).db = [("u", ⟨["b"], []⟩)] ∧
    (insertData (fun _ => some ⟨1062, "Duplicate key"⟩) 0 [("u", ⟨["b"], []⟩)]
        ⟨["b"], [[Value.vInt 4]]⟩ "u" none 1000).result = InsertResult.noneVal :=
  claim2_rollback_on_chunk_failure (fun _ => some ⟨1062, "Duplicate key"⟩) 0
    [("u", ⟨["b"], []⟩)] ⟨["b"], [[Value.vInt 4]]⟩ "u" none 1000
    ⟨1062, "Duplicate key"⟩ (by decide) (by decide)

/-! ## Claim C3 -/

/-- C3 counterexample: a duplicate-key failure (code 1062) during execution
makes `insert_data` return the Python `None` - not the `[0, 0]` zero-result
indicator, which only the `except Exception` arm produces. -/
theorem claim3_counterexample :
    attemptError (fun _ => some ⟨1062, "Duplicate entry for key"⟩)
        [("t", ⟨["a"], []⟩)] ⟨["a"], [[Value.vInt 5]]⟩ "t" 1000 =
      some ⟨1062, "Duplicate entry for key"⟩ ∧
    (insertData (fun _ => some ⟨1062, "Duplicate entry for key"⟩) 0
        [("t", ⟨["a"], []⟩)] ⟨["a"], [[Value.vInt 5]]⟩ "t" none 1000).result ≠
      InsertResult.zero := by
  decide

/-- C3 amended: for every SQL execution failure during the upsert other than
the recognized missing-table condition, `insert_data` does not raise but
returns the Python `None` (both arms of the `except SQLAlchemyError` handler
fall off the function), not the `[0, 0]` zero-result indicator. -/
theorem claim3_failure_returns_none
    (inject : Nat → Option SqlError) (now : Nat) (db : DBState)
    (data : DataFrame) (table_name : String) (primary_key : Option String)
    (batch_size : Nat) (e : SqlError)
    (herr : attemptError inject db data table_name batch_size = some e)
    (hnm : missingTableErr e = false) :
    (insertData inject now db data table_name primary_key batch_size).result =
      InsertResult.noneVal ∧
    InsertResult.noneVal ≠ InsertResult.zero := by
  refine ⟨?_, by decide⟩
  unfold attemptError at herr
  unfold insertData
  cases houtcome : (insertAttempt inject db data table_name batch_size).outcome with
  | ok p =>
    rw [houtcome] at herr
    cases herr
  | error e1 =>
    rw [houtcome] at herr
    rcases Option.some.injEq .. ▸ herr with rfl
    simp [houtcome, hnm]

/-- C3 witness: a connectivity-style failure (code 2003) at the first chunk
yields the `None` report. -/
theorem claim3_witness :
    (insertData (fun _ => some ⟨2003, "Cannot connect to MySQL server"⟩) 0
        [("v", ⟨["c"], []⟩)] ⟨["c"], [[Value.vInt 8]]⟩ "v" none 1000).result =
      InsertResult.noneVal ∧
    InsertResult.noneVal ≠ InsertResult.zero :=
  claim3_failure_returns_none (fun _ => some ⟨2003, "Cannot connect to MySQL server"⟩)
    0 [("v", ⟨["c"], []⟩)] ⟨["c"], [[Value.vInt 8]]⟩ "v" none 1000
    ⟨2003, "Cannot connect to MySQL server"⟩ (by decide) (by decide)

/-! ## Claim C6 -/

/-- C6: for every table name, calling `insert_data` with a zero-row input
that has columns is a no-op: no chunk is executed, the destination is
neither created nor altered, and the call returns the zero row-count
`[0, 0]` without raising (via the unbound `result` local caught by
`except Exception`). -/
theorem claim6_empty_input (inject : Nat → Option SqlError) (now : Nat)
    (db : DBState) (data : DataFrame) (table_name : String)
    (primary_key : Option String) (batch_size : Nat)
    (hrows : data.rows = []) (hcols : data.cols ≠ []) :
    insertData inject now db data table_name primary_key batch_size =
      ⟨.zero, db, insertDataSql table_name data.cols, data, []⟩ := by
  unfold insertData insertAttempt
  rw [show (cleanData data).rows = [] by simp [cleanData, hrows]]
  rw [chunker_nil]
  rfl

/-- C6 witness: an empty two-column frame against an existing table returns
the zero sentinel and leaves the database exactly as it was. -/
theorem claim6_witness :
    insertData (fun _ => none) 0 [("t", ⟨["a"], [[Value.vInt 9]]⟩)]
        ⟨["x", "y"], []⟩ "t" none 1000 =
      ⟨.zero, [("t", ⟨["a"], [[Value.vInt 9]]⟩)], insertDataSql "t" ["x", "y"],
        ⟨["x", "y"], []⟩, []⟩ :=
  claim6_empty_input (fun _ => none) 0 [("t", ⟨["a"], [[Value.vInt 9]]⟩)]
    ⟨["x", "y"], []⟩ "t" none 1000 rfl (by decide)

/-! ## Claim C4 -/

/-- C4: when execution fails with the recognized missing-table error, the
engine writes the entire, unsanitized input dataframe plus the two audit
timestamp columns (both set to the current time) as a freshly created
table: its columns are exactly the input columns plus `record_inserted` and
`record_updated`, and its rows are the input rows, so the row count is the
input row count. -/
theorem claim4_missing_table_fallback (inject : Nat → Option SqlError)
    (now : Nat) (db : DBState) (data : DataFrame) (table_name : String)
    (primary_key : Option String) (batch_size : Nat)
    (habsent : lookupTable db table_name = none)
    (hrows : data.rows ≠ []) (hbs : 0 < batch_size)
    (hinj : inject 1 = none)
    (hri : data.cols.contains "record_inserted" = false)
    (hru : data.cols.contains "record_updated" = false) :
    lookupTable (insertData inject now db data table_name primary_key batch_size).db
        table_name =
      some ⟨data.cols ++ ["record_inserted", "record_updated"],
            data.rows.map (fun r => r ++ [Value.vTime now, Value.vTime now])⟩ ∧
    (data.rows.map (fun r => r ++ [Value.vTime now, Value.vTime now])).length =
      data.rows.length := by
  refine ⟨?_, by simp⟩
  have hclean : (cleanData data).rows ≠ [] := by
    simp [cleanData, hrows]
  obtain ⟨c, cs, hc⟩ :=
    List.exists_cons_of_ne_nil (chunker_ne_nil _ _ hclean hbs)
  unfold insertData insertAttempt
  rw [hc]
  simp only [runChunks, hinj, execChunk, habsent, missingTableErr_tableMissing,
    if_true]
  have hri1 : "record_inserted" ∉ data.cols := by simpa using hri
  have hru1 : "record_updated" ∉ data.cols := by simpa using hru
  have hsc1 : setCol data "record_inserted" (.vTime now) =
      ⟨data.cols ++ ["record_inserted"],
        data.rows.map (fun r => r ++ [Value.vTime now])⟩ := by
    simp [setCol, hri1]
  have hsc2 : setCol (⟨data.cols ++ ["record_inserted"],
        data.rows.map (fun r => r ++ [Value.vTime now])⟩ : DataFrame)
      "record_updated" (.vTime now) =
      ⟨data.cols ++ ["record_inserted", "record_updated"],
        data.rows.map (fun r => r ++ [Value.vTime now, Value.vTime now])⟩ := by
    simp [setCol, hru1, List.append_assoc, Function.comp]
  rw [hsc1, hsc2]
  unfold toSqlAppend
  rw [habsent]
  exact lookupTable_append_self db table_name _ habsent

/-- C4 witness: a one-row frame against an empty database creates the table
with the audit columns appended and the single row extended by the two
timestamps. -/
theorem claim4_witness :
    lookupTable (insertData (fun _ => none) 3 [] ⟨["a"], [[Value.vInt 5]]⟩
        "t" none 1000).db "t" =
      some ⟨["a", "record_inserted", "record_updated"],
            [[Value.vInt 5, Value.vTime 3, Value.vTime 3]]⟩ ∧
    ([[Value.vInt 5, Value.vTime 3, Value.vTime 3]] : List (List Value)).length = 1 := by
  have h := claim4_missing_table_fallback (fun _ => none) 3 [] ⟨["a"], [[Value.vInt 5]]⟩
    "t" none 1000 rfl (by decide) (by decide) rfl (by decide) (by decide)
  exact ⟨h.1, h.2⟩

/-! ## Claim C10 -/

theorem replPP_cons_ne (c : Char) (hc : c ≠ '%') (r : List Char) :
    replPercentParen (c :: r) = c :: replPercentParen r := by
  cases r with
  | nil => rfl
  | cons d rs => simp [replPercentParen, hc]

theorem replPP_cons2 (c d : Char) (X : List Char)
    (hcd : (c = '%' && d = '(') = false) :
    replPercentParen (c :: d :: X) = c :: replPercentParen (d :: X) := by
  simp [replPercentParen, hcd]

theorem replPP_head_pp (X : List Char) :
    replPercentParen ('%' :: '(' :: X) = ':' :: replPercentParen X := by
  simp [replPercentParen]

theorem noPP_tail (c d : Char) (t : List Char) (h : noPP (c :: d :: t) = true) :
    noPP (d :: t) = true := by
  have h1 : (¬c = '%' ∨ ¬d = '(') ∧ noPP (d :: t) = true := by simpa [noPP] using h
  exact h1.2

theorem noPP_head (c d : Char) (t : List Char) (h : noPP (c :: d :: t) = true) :
    (c = '%' && d = '(') = false := by
  have h1 : (¬c = '%' ∨ ¬d = '(') ∧ noPP (d :: t) = true := by simpa [noPP] using h
  rcases h1.1 with hx | hx <;> simp [hx]

theorem replPP_append (l r : List Char) (h : noPP l = true) :
    replPercentParen (l ++ r) = l ++ replPercentParen r := by
  induction l with
  | nil => rfl
  | cons c t ih =>
    cases t with
    | nil =>
      have hc : c ≠ '%' := by simpa [noPP] using h
      show replPercentParen (c :: r) = c :: replPercentParen r
      exact replPP_cons_ne c hc r
    | cons d ts =>
      show replPercentParen (c :: d :: (ts ++ r)) = c :: d :: ts ++ replPercentParen r
      rw [replPP_cons2 c d (ts ++ r) (noPP_head c d ts h)]
      rw [show d :: (ts ++ r) = (d :: ts) ++ r from rfl]
      rw [ih (noPP_tail c d ts h)]
      rfl

theorem replPP_alnum_tail (name r : List Char)
    (h : ∀ c ∈ name, c.isAlphanum = true) :
    replPercentParen (name ++ ')' :: 's' :: r) =
      name ++ ')' :: 's' :: replPercentParen r := by
  induction name with
  | nil =>
    show replPercentParen (')' :: 's' :: r) = ')' :: 's' :: replPercentParen r
    rw [replPP_cons_ne ')' (by decide) ('s' :: r), replPP_cons_ne 's' (by decide) r]
  | cons a as ih =>
    have ha : a ≠ '%' := by
      intro hEq
      have := h a (List.mem_cons_self a as)
      rw [hEq] at this
      exact absurd this (by decide)
    have has : ∀ c ∈ as, c.isAlphanum = true :=
      fun c hc => h c (List.mem_cons_of_mem a hc)
    show replPercentParen (a :: (as ++ ')' :: 's' :: r)) =
      a :: (as ++ ')' :: 's' :: replPercentParen r)
    rw [replPP_cons_ne a ha, ih has]

theorem replPP_param (name r : List Char)
    (h : ∀ c ∈ name, c.isAlphanum = true) :
    replPercentParen ('%' :: '(' :: (name ++ ')' :: 's' :: r)) =
      ':' :: (name ++ ')' :: 's' :: replPercentParen r) := by
  rw [replPP_head_pp, replPP_alnum_tail name r h]

theorem dropPS_cons_ne (c : Char) (hc : c ≠ ')') (r : List Char) :
    dropParenS (c :: r) = c :: dropParenS r := by
  cases r with
  | nil => rfl
  | cons d rs => simp [dropParenS, hc]

theorem dropPS_head_ps (X : List Char) :
    dropParenS (')' :: 's' :: X) = dropParenS X := by
  simp [dropParenS]

theorem dropPS_cons2 (c d : Char) (X : List Char)
    (hcd : (c = ')' && d = 's') = false) :
    dropParenS (c :: d :: X) = c :: dropParenS (d :: X) := by
  simp [dropParenS, hcd]

theorem noPS_tail (c d : Char) (t : List Char) (h : noPS (c :: d :: t) = true) :
    noPS (d :: t) = true := by
  have h1 : (¬c = ')' ∨ ¬d = 's') ∧ noPS (d :: t) = true := by simpa [noPS] using h
  exact h1.2

theorem noPS_head (c d : Char) (t : List Char) (h : noPS (c :: d :: t) = true) :
    (c = ')' && d = 's') = false := by
  have h1 : (¬c = ')' ∨ ¬d = 's') ∧ noPS (d :: t) = true := by simpa [noPS] using h
  rcases h1.1 with hx | hx <;> simp [hx]

theorem dropPS_append (l r : List Char) (h : noPS l = true) :
    dropParenS (l ++ r) = l ++ dropParenS r := by
  induction l with
  | nil => rfl
  | cons c t ih =>
    cases t with
    | nil =>
      have hc : c ≠ ')' := by simpa [noPS] using h
      show dropParenS (c :: r) = c :: dropParenS r
      exact dropPS_cons_ne c hc r
    | cons d ts =>
      show dropParenS (c :: d :: (ts ++ r)) = c :: d :: ts ++ dropParenS r
      rw [dropPS_cons2 c d (ts ++ r) (noPS_head c d ts h)]
      rw [show d :: (ts ++ r) = (d :: ts) ++ r from rfl]
      rw [ih (noPS_tail c d ts h)]
      rfl

theorem dropPS_alnum_tail (name r : List Char)
    (h : ∀ c ∈ name, c.isAlphanum = true) :
    dropParenS (name ++ ')' :: 's' :: r) = name ++ dropParenS r := by
  induction name with
  | nil =>
    show dropParenS (')' :: 's' :: r) = dropParenS r
    exact dropPS_head_ps r
  | cons a as ih =>
    have ha : a ≠ ')' := by
      intro hEq
      have := h a (List.mem_cons_self a as)
      rw [hEq] at this
      exact absurd this (by decide)
    have has : ∀ c ∈ as, c.isAlphanum = true :=
      fun c hc => h c (List.mem_cons_of_mem a hc)
    show dropParenS (a :: (as ++ ')' :: 's' :: r)) = a :: (as ++ dropParenS r)
    rw [dropPS_cons_ne a ha, ih has]

theorem dropPS_param (name r : List Char)
    (h : ∀ c ∈ name, c.isAlphanum = true) :
    dropParenS (':' :: (name ++ ')' :: 's' :: r)) =
      ':' :: (name ++ dropParenS r) := by
  rw [dropPS_cons_ne ':' (by decide), dropPS_alnum_tail name r h]

/-- Translation correctness on well-formed segment lists. -/
theorem translate_renders (qs : List QuerySeg) :
    wfQuery qs = true →
    dropParenS (replPercentParen (percentRender qs)) = colonRender qs := by
  induction qs with
  | nil => intro _; rfl
  | cons s rest ih =>
    intro h
    have hsplit : wfSeg s = true ∧ wfQuery rest = true := by
      simpa [wfQuery, Bool.and_eq_true] using h
    cases s with
    | lit str =>
      have h1 : noPP str.data = true ∧ noPS str.data = true := by
        simpa [wfSeg, Bool.and_eq_true] using hsplit.1
      have hpr : percentRender (QuerySeg.lit str :: rest) =
          str.data ++ percentRender rest := by
        simp [percentRender, percentRenderSeg]
      have hcr : colonRender (QuerySeg.lit str :: rest) =
          str.data ++ colonRender rest := by
        simp [colonRender, colonRenderSeg]
      rw [hpr, hcr, replPP_append _ _ h1.1, dropPS_append _ _ h1.2, ih hsplit.2]
    | param n =>
      have halnum : ∀ c ∈ n.data, c.isAlphanum = true := by
        have h2 := hsplit.1
        simp only [wfSeg, Bool.and_eq_true, List.all_eq_true] at h2
        exact h2.2
      have hpr : percentRender (QuerySeg.param n :: rest) =
          '%' :: '(' :: (n.data ++ ')' :: 's' :: percentRender rest) := by
        simp [percentRender, percentRenderSeg, List.append_assoc]
      have hcr : colonRender (QuerySeg.param n :: rest) =
          ':' :: (n.data ++ colonRender rest) := by
        simp [colonRender, colonRenderSeg]
      rw [hpr, hcr, replPP_param _ _ halnum, dropPS_param _ _ halnum, ih hsplit.2]

/-- C10: the placeholder translation of `execute_query` rewrites every
occurrence of the substring `percent-paren` to a colon and deletes every
occurrence of the substring `paren-s` anywhere in the query text: for every
query whose only such substrings form percent-style placeholders the result
is the corresponding colon-style query, while a query containing one of
these substrings outside a placeholder has its executed text changed. -/
theorem claim10_placeholder_translation :
    (∀ qs : List QuerySeg, wfQuery qs = true →
        executeQueryRewrite (String.mk (percentRender qs)) =
          String.mk (colonRender qs)) ∧
    (executeQueryRewrite "SELECT (a)some FROM t" = "SELECT (aome FROM t" ∧
      ("SELECT (a)some FROM t" : String) ≠ "SELECT (aome FROM t") := by
  refine ⟨?_, by constructor <;> decide⟩
  intro qs h
  exact congrArg String.mk (translate_renders qs h)

/-- C10 witness: a concrete two-segment query with one placeholder is
translated from percent style to colon style. -/
theorem claim10_witness :
    executeQueryRewrite (String.mk (percentRender
      [QuerySeg.lit "SELECT * FROM t WHERE a = ", QuerySeg.param "a"])) =
    String.mk (colonRender
      [QuerySeg.lit "SELECT * FROM t WHERE a = ", QuerySeg.param "a"]) :=
  claim10_placeholder_translation.1
    [QuerySeg.lit "SELECT * FROM t WHERE a = ", QuerySeg.param "a"] (by decide)

end ZohoReports
